import Mathlib

/-!
Verification of `src/my-user-info.py`: a single-operation tool that looks up
the authenticated user's record by email and renders a human-readable summary.

The embedding below translates the source directly:
* `User` mirrors the fields the renderer reads from the ORM record.
* `get_user_by_email` models the external repository read (the `db` module is
  not part of this repository's sources; it is modelled from the spec).
* `render` is the body of `get_my_user_information` after the lookup: the
  not-found sentinel on line 12 and the f-string `content` on lines 14-21.
  Python's triple-quoted f-string places an explicit `\n` escape plus the
  literal line break after each field, and `str` of a Python `bool` is
  `True`/`False`; `str` of an `int` is its decimal representation with a
  leading minus sign when negative, which coincides with `toString` on `Int`.
* `get_my_user_information` composes the two, threading the store state
  explicitly and ignoring `tool_input` exactly as the source does.
-/

/-- The user record fields read by `get_my_user_information`
(`user.email`, `user.avatar`, `user.description`, `user.total_requests`,
`user.used_requests`, `user.is_feishu_user`). The two counters are Python
integers, so they are modelled as `Int`; the spec's non-negativity is an
assumption of callers, not enforced by the code. -/
structure User where
  email : String
  avatar : String
  description : String
  total_requests : Int
  used_requests : Int
  is_feishu_user : Bool

/-- The external data store, as consumed by this core: a point-in-time
mapping from email identities to user snapshots. -/
def Store : Type := String → Option User

/-- Modelled from the spec: the repository operation
`crud_user.get_user_by_email` lives in the external `db` module, which is not
among this repository's source files. Per spec sections 4.1 and 6 it is a
single read query, "get user record by email", returning the matching `User`
snapshot or an absent result, with no side effects on the store beyond the
read. It is embedded as a state-passing read that returns the looked-up
record together with the (unchanged) store. -/
def get_user_by_email (conn : Store) (email : String) : Option User × Store :=
  (conn email, conn)

/-- The ambient context object `bot` from which the source reads the caller
identity (`bot.email`) and the data-store handle (`bot.db()`). -/
structure BotCtx where
  email : String
  db : Store

/-- Renderer: lines 11-21 of `get_my_user_information`. An absent user yields
the sentinel `"No user information"` (line 12); a present user yields the
f-string `content` (lines 14-21), with each embedded expression interpolated
verbatim and the two quota counters combined by exact integer subtraction. -/
def render : Option User → String
  | none => "No user information"
  | some user =>
      "您的登录用户信息如下：\n\n头像：![头像](" ++ user.avatar
        ++ " \"=60x40\")\n\n邮箱: " ++ user.email
        ++ "\n\n描述: " ++ user.description
        ++ "\n\n剩余使用次数: " ++ toString (user.total_requests - user.used_requests)
        ++ "\n\n是否飞书用户：" ++ (if user.is_feishu_user then "True" else "False")
        ++ "\n"

/-- The whole operation (lines 6-21): look the caller's record up by
`bot.email` through the store handle, then render. `tool_input` is accepted
(at any type, as in Python) and never used. The resulting store state is
returned alongside the output string so that the operation's effect on the
store is part of the embedding. -/
def get_my_user_information {α : Type} (tool_input : α) (bot : BotCtx) : String × Store :=
  let res := get_user_by_email bot.db bot.email
  (render res.1, res.2)

/-- `s` contains `t` as a literal, contiguous substring. -/
def ContainsSubstr (s t : String) : Prop := ∃ a b : String, s = a ++ (t ++ b)

/-- A fixed example record used by the spec's worked example. -/
def exampleUser : User :=
  User.mk "a@x.com" "http://img/1.png" "VIP" 100 30 true

lemma render_contains_email (u : User) : ContainsSubstr (render (some u)) u.email := by
  refine ⟨"您的登录用户信息如下：\n\n头像：![头像](" ++ (u.avatar ++ " \"=60x40\")\n\n邮箱: "),
    "\n\n描述: " ++ (u.description ++ ("\n\n剩余使用次数: "
      ++ (toString (u.total_requests - u.used_requests) ++ ("\n\n是否飞书用户："
      ++ ((if u.is_feishu_user then "True" else "False") ++ "\n"))))), ?_⟩
  simp [render, String.append_assoc]

lemma render_contains_description (u : User) :
    ContainsSubstr (render (some u)) u.description := by
  refine ⟨"您的登录用户信息如下：\n\n头像：![头像](" ++ (u.avatar ++ (" \"=60x40\")\n\n邮箱: "
      ++ (u.email ++ "\n\n描述: "))),
    "\n\n剩余使用次数: " ++ (toString (u.total_requests - u.used_requests)
      ++ ("\n\n是否飞书用户：" ++ ((if u.is_feishu_user then "True" else "False") ++ "\n"))), ?_⟩
  simp [render, String.append_assoc]

lemma render_contains_remaining (u : User) :
    ContainsSubstr (render (some u))
      ("剩余使用次数: " ++ (toString (u.total_requests - u.used_requests) ++ "\n")) := by
  refine ⟨"您的登录用户信息如下：\n\n头像：![头像](" ++ (u.avatar ++ (" \"=60x40\")\n\n邮箱: "
      ++ (u.email ++ ("\n\n描述: " ++ (u.description ++ "\n\n"))))),
    "\n是否飞书用户：" ++ ((if u.is_feishu_user then "True" else "False") ++ "\n"), ?_⟩
  have h1 : ("\n\n剩余使用次数: " : String) = "\n\n" ++ "剩余使用次数: " := rfl
  have h2 : ("\n\n是否飞书用户：" : String) = "\n" ++ "\n是否飞书用户：" := rfl
  simp only [render]
  rw [h1, h2]
  simp only [String.append_assoc]

lemma render_contains_flag (u : User) :
    ContainsSubstr (render (some u))
      ("是否飞书用户：" ++ (if u.is_feishu_user then "True" else "False")) := by
  refine ⟨"您的登录用户信息如下：\n\n头像：![头像](" ++ (u.avatar ++ (" \"=60x40\")\n\n邮箱: "
      ++ (u.email ++ ("\n\n描述: " ++ (u.description ++ ("\n\n剩余使用次数: "
      ++ (toString (u.total_requests - u.used_requests) ++ "\n\n"))))))),
    "\n", ?_⟩
  have h1 : ("\n\n是否飞书用户：" : String) = "\n\n" ++ "是否飞书用户：" := rfl
  simp only [render]
  rw [h1]
  simp only [String.append_assoc]

/-- C1: for every identity with no matching user record, the operation
returns exactly the fixed not-found sentinel string `"No user information"`,
with no user fields and no other content. -/
theorem lookup_absent_yields_sentinel {α : Type} (ti : α) (bot : BotCtx)
    (h : (get_user_by_email bot.db bot.email).1 = none) :
    (get_my_user_information ti bot).1 = "No user information" := by
  show render (get_user_by_email bot.db bot.email).1 = "No user information"
  rw [h]
  rfl

theorem lookup_absent_yields_sentinel_witness :
    (get_user_by_email (BotCtx.mk "a@x.com" (fun _ => none)).db
        (BotCtx.mk "a@x.com" (fun _ => none)).email).1 = none
    ∧ (get_my_user_information 0 (BotCtx.mk "a@x.com" (fun _ => none))).1
        = "No user information" :=
  ⟨rfl, lookup_absent_yields_sentinel 0 (BotCtx.mk "a@x.com" (fun _ => none)) rfl⟩

/-- C2: for every user record with non-negative counters, the rendered output
contains the remaining-count field rendered as exactly
`total_requests - used_requests` under exact integer subtraction, with no
clamping (the statement holds verbatim when the difference is zero or
negative, as the witness with `used_requests > total_requests` shows). -/
theorem remaining_is_exact_difference (u : User)
    (h1 : 0 ≤ u.total_requests) (h2 : 0 ≤ u.used_requests) :
    ContainsSubstr (render (some u))
      ("剩余使用次数: " ++ (toString (u.total_requests - u.used_requests) ++ "\n")) :=
  render_contains_remaining u

theorem remaining_is_exact_difference_witness :
    (0 : Int) ≤ 100 ∧ (0 : Int) ≤ 130
    ∧ ContainsSubstr (render (some (User.mk "a@x.com" "http://img/1.png" "VIP" 100 130 false)))
        ("剩余使用次数: " ++ (toString ((100 : Int) - 130) ++ "\n")) :=
  ⟨by decide, by decide,
    remaining_is_exact_difference (User.mk "a@x.com" "http://img/1.png" "VIP" 100 130 false)
      (by decide) (by decide)⟩

/-- C3: for every present user record, the rendered output contains the
user's email string and the user's description string as literal substrings,
unmodified. -/
theorem output_contains_email_and_description (u : User) :
    ContainsSubstr (render (some u)) u.email
    ∧ ContainsSubstr (render (some u)) u.description :=
  ⟨render_contains_email u, render_contains_description u⟩

/-- C4: for every present user record, the rendered output decomposes, in
this fixed order, into: an embedded image reference built from `avatar` with
the presentation-size hint `"=60x40"`, then the email, then the description,
then the remaining-requests count, then the Feishu-membership flag. -/
theorem render_field_order (u : User) :
    ∃ s0 s1 s2 s3 s4 s5 : String,
      render (some u) =
        s0 ++ ("![头像](" ++ (u.avatar ++ " \"=60x40\")"))
          ++ s1 ++ u.email
          ++ s2 ++ u.description
          ++ s3 ++ toString (u.total_requests - u.used_requests)
          ++ s4 ++ (if u.is_feishu_user then "True" else "False")
          ++ s5 := by
  refine ⟨"您的登录用户信息如下：\n\n头像：", "\n\n邮箱: ", "\n\n描述: ",
    "\n\n剩余使用次数: ", "\n\n是否飞书用户：", "\n", ?_⟩
  have h1 : ("您的登录用户信息如下：\n\n头像：![头像](" : String)
      = "您的登录用户信息如下：\n\n头像：" ++ "![头像](" := rfl
  have h2 : (" \"=60x40\")\n\n邮箱: " : String) = " \"=60x40\")" ++ "\n\n邮箱: " := rfl
  simp only [render]
  rw [h1, h2]
  simp only [String.append_assoc]

/-- C5: for every present user record, the Feishu flag appears in the output
as one of the two fixed literals `"True"` / `"False"`, selected solely by the
`is_feishu_user` field. -/
theorem feishu_flag_two_literals (u : User) :
    ContainsSubstr (render (some u))
      ("是否飞书用户：" ++ (if u.is_feishu_user then "True" else "False")) :=
  render_contains_flag u

/-- C6: for the spec's worked example (email `a@x.com`, avatar
`http://img/1.png`, description `VIP`, 100 total and 30 used requests,
Feishu user), the rendered output contains the remaining value `70`, the
email, the description, and the true-literal flag rendering. -/
theorem example_user_rendering :
    ContainsSubstr (render (some exampleUser)) "剩余使用次数: 70"
    ∧ ContainsSubstr (render (some exampleUser)) "a@x.com"
    ∧ ContainsSubstr (render (some exampleUser)) "VIP"
    ∧ ContainsSubstr (render (some exampleUser)) "是否飞书用户：True" :=
  ⟨⟨"您的登录用户信息如下：\n\n头像：![头像](http://img/1.png \"=60x40\")\n\n邮箱: a@x.com\n\n描述: VIP\n\n",
      "\n\n是否飞书用户：True\n", by decide⟩,
   ⟨"您的登录用户信息如下：\n\n头像：![头像](http://img/1.png \"=60x40\")\n\n邮箱: ",
      "\n\n描述: VIP\n\n剩余使用次数: 70\n\n是否飞书用户：True\n", by decide⟩,
   ⟨"您的登录用户信息如下：\n\n头像：![头像](http://img/1.png \"=60x40\")\n\n邮箱: a@x.com\n\n描述: ",
      "\n\n剩余使用次数: 70\n\n是否飞书用户：True\n", by decide⟩,
   ⟨"您的登录用户信息如下：\n\n头像：![头像](http://img/1.png \"=60x40\")\n\n邮箱: a@x.com\n\n描述: VIP\n\n剩余使用次数: 70\n\n",
      "\n", by decide⟩⟩

/-- C7: the output string is determined by the looked-up snapshot alone: two
invocations whose lookups observe the same user record (or the same absent
result) produce byte-identical output strings, whatever their tool inputs,
stores, or identities. -/
theorem output_determined_by_snapshot {α β : Type} (t1 : α) (t2 : β) (b1 b2 : BotCtx)
    (h : (get_user_by_email b1.db b1.email).1 = (get_user_by_email b2.db b2.email).1) :
    (get_my_user_information t1 b1).1 = (get_my_user_information t2 b2).1 := by
  show render (get_user_by_email b1.db b1.email).1
      = render (get_user_by_email b2.db b2.email).1
  rw [h]

theorem output_determined_by_snapshot_witness :
    (get_user_by_email (BotCtx.mk "e@x.com" (fun _ => none)).db
        (BotCtx.mk "e@x.com" (fun _ => none)).email).1
      = (get_user_by_email (BotCtx.mk "f@y.com" (fun _ => none)).db
        (BotCtx.mk "f@y.com" (fun _ => none)).email).1
    ∧ (get_my_user_information 0 (BotCtx.mk "e@x.com" (fun _ => none))).1
      = (get_my_user_information "ignored" (BotCtx.mk "f@y.com" (fun _ => none))).1 :=
  ⟨rfl, output_determined_by_snapshot 0 "ignored"
    (BotCtx.mk "e@x.com" (fun _ => none)) (BotCtx.mk "f@y.com" (fun _ => none)) rfl⟩

/-- C8: the caller-supplied `tool_input` has no influence on the output: for
any two tool-input values (of any types), with the same identity and the
same store contents, the operation returns the identical string. -/
theorem tool_input_noninterference {α β : Type} (t1 : α) (t2 : β) (b1 b2 : BotCtx)
    (h1 : b1.email = b2.email) (h2 : b1.db = b2.db) :
    (get_my_user_information t1 b1).1 = (get_my_user_information t2 b2).1 := by
  show render (get_user_by_email b1.db b1.email).1
      = render (get_user_by_email b2.db b2.email).1
  rw [h1, h2]

theorem tool_input_noninterference_witness :
    (BotCtx.mk "a@x.com" (fun _ => some exampleUser)).email
      = (BotCtx.mk "a@x.com" (fun _ => some exampleUser)).email
    ∧ (BotCtx.mk "a@x.com" (fun _ => some exampleUser)).db
      = (BotCtx.mk "a@x.com" (fun _ => some exampleUser)).db
    ∧ (get_my_user_information 1 (BotCtx.mk "a@x.com" (fun _ => some exampleUser))).1
      = (get_my_user_information "x" (BotCtx.mk "a@x.com" (fun _ => some exampleUser))).1 :=
  ⟨rfl, rfl, tool_input_noninterference 1 "x"
    (BotCtx.mk "a@x.com" (fun _ => some exampleUser))
    (BotCtx.mk "a@x.com" (fun _ => some exampleUser)) rfl rfl⟩

/-- C9: the operation performs no writes: on every invocation and every
outcome, the store that comes out of the operation — and out of the single
by-email read it issues — is exactly the store that went in. -/
theorem no_writes_to_store {α : Type} (ti : α) (bot : BotCtx) :
    (get_my_user_information ti bot).2 = bot.db
    ∧ (get_user_by_email bot.db bot.email).2 = bot.db :=
  ⟨rfl, rfl⟩

/-- C10: for every present user record, the rendered output differs from the
not-found sentinel, so the found and not-found outcomes are always
distinguishable from the output string alone. -/
theorem render_found_ne_sentinel (u : User) :
    render (some u) ≠ "No user information" := by
  intro h
  have h2 : (render (some u)).data = ("No user information" : String).data :=
    congrArg String.data h
  simp only [render, String.data_append] at h2
  have h3 := congrArg List.head? h2
  simp at h3
